import Mathlib

/-!
Shallow embedding of the calculation engine in `fpcalc.py`: reference-table
lookups, the period estimate, the height-amplification and ductility factors,
and the two clamped coefficient functions (ASCE 7-16 / 7-22 variants).

Table rows are records with the fields the Python dictionaries carry; numeric
fields are rationals except where the source uses `math.sqrt` or a real-valued
power (`hn ** x`), which are modelled over the reals.  Python's raising
division is modelled as `Except`: dividing by zero yields
`.error "ZeroDivisionError"`.  Python's `.strip().lower()` name normalization
is modelled by `pyNormalize` on the string's character list.
-/

namespace FpCalc

/-- Model of Python `s.strip().lower()` on the character list of `s`:
drop whitespace from both ends, then lower-case every character. -/
def pyNormalize (s : String) : List Char :=
  (((s.data.dropWhile Char.isWhitespace).reverse.dropWhile Char.isWhitespace).reverse).map
    Char.toLower

/-- Python division on rationals: raises `ZeroDivisionError` on a zero divisor. -/
def pydiv (a b : ℚ) : Except String ℚ :=
  if b = 0 then .error "ZeroDivisionError" else .ok (a / b)

/-- A row of the structural-system table: keys `"SFRS"`, `"R"`, `"Omega"`. -/
structure SfrsRow where
  SFRS : String
  R : ℚ
  Omega : ℚ
deriving DecidableEq

/-- A row of the component table, carrying both the ASCE 7-22 fields
(`CAR_below`, `CAR_above`, `Rpo`, `Omega`) and the ASCE 7-16 fields
(`ap_16`, `Rp_16`, `Omega_16`). -/
structure ComponentRow where
  Component : String
  CAR_below : ℚ
  CAR_above : ℚ
  Rpo : ℚ
  Omega : ℚ
  ap_16 : ℚ
  Rp_16 : ℚ
  Omega_16 : ℚ
deriving DecidableEq

/-- A row of the period table: keys `"Structure Type "`, `"Ct"`, `"x"`. -/
structure PeriodRow where
  structureType : String
  Ct : ℝ
  x : ℝ

/-- `get_sfrs_factors(sfrs_data, selected_sfrs)`: `(None, None)` when no
selection was made, the first matching row's `(R, Omega)` on a
trimmed/case-insensitive match, and `(1.0, 1.0)` when nothing matches. -/
def get_sfrs_factors (sfrs_data : List SfrsRow) (selected_sfrs : Option String) :
    Option ℚ × Option ℚ :=
  match selected_sfrs with
  | none => (none, none)
  | some s =>
    match sfrs_data.find? (fun row => pyNormalize row.SFRS == pyNormalize s) with
    | some row => (some row.R, some row.Omega)
    | none => (some 1.0, some 1.0)

/-- `get_component_factors(component_data, component_name, location)` (ASCE 7-22):
returns `(CAR, Rpo, Omega)`, choosing `CAR_below` exactly when `location`
equals `"Supported At or Below Grade"`; all-ones fallback when the name is
absent or unmatched. -/
def get_component_factors (component_data : List ComponentRow)
    (component_name : Option String) (location : Option String) : ℚ × ℚ × ℚ :=
  match component_name with
  | none => (1.0, 1.0, 1.0)
  | some s =>
    match component_data.find? (fun row => pyNormalize row.Component == pyNormalize s) with
    | some row =>
      ((if location = some "Supported At or Below Grade" then row.CAR_below else row.CAR_above),
        row.Rpo, row.Omega)
    | none => (1.0, 1.0, 1.0)

/-- `get_component_factors_16(component_data, component_name)` (ASCE 7-16):
returns `(ap, Rp, Omega)` of the first matching row, all-ones fallback when
the name is absent or unmatched. -/
def get_component_factors_16 (component_data : List ComponentRow)
    (component_name : Option String) : ℚ × ℚ × ℚ :=
  match component_name with
  | none => (1.0, 1.0, 1.0)
  | some s =>
    match component_data.find? (fun row => pyNormalize row.Component == pyNormalize s) with
    | some row => (row.ap_16, row.Rp_16, row.Omega_16)
    | none => (1.0, 1.0, 1.0)

/-- `calculate_ta(period_data, structure_type, hn)`: `(Ta, Ct, x)` with
`Ta = Ct * hn ** x` from the first matching row, `(None, None, None)` when the
structure type is absent or unmatched. -/
noncomputable def calculate_ta (period_data : List PeriodRow)
    (structure_type : Option String) (hn : ℝ) : Option ℝ × Option ℝ × Option ℝ :=
  match structure_type with
  | none => (none, none, none)
  | some s =>
    match period_data.find? (fun row => pyNormalize row.structureType == pyNormalize s) with
    | some row => (some (row.Ct * hn ^ row.x), some row.Ct, some row.x)
    | none => (none, none, none)

/-- Return shape of `calculate_hf`: a `(Hf, a1, a2)` 3-tuple in two branches,
a bare number (`3.5`) in the guarded edge branch. -/
inductive HfResult where
  | triple (Hf : ℚ) (a1 a2 : Option ℚ)
  | bare (v : ℚ)
deriving DecidableEq

/-- `calculate_hf(z, h, Ta)`: clamp `z` to `h`, then branch on the period.
No period: `1 + 2.5 * (z / h)` with no `a1`/`a2` (the division can raise).
Period with `Ta <= 0 or h <= 0`: the bare value `3.5`.  Otherwise
`1 + a1 * (z/h) + a2 * (z/h)**10` with `a1 = min(1/Ta, 2.5)` and
`a2 = max(1 - (0.4/Ta)**2, 0)`. -/
def calculate_hf (z h : ℚ) (Ta : Option ℚ) : Except String HfResult :=
  let z' := if z > h then h else z
  match Ta with
  | none =>
    match pydiv z' h with
    | .error e => .error e
    | .ok r => .ok (.triple (1 + 2.5 * r) none none)
  | some ta =>
    if ta ≤ 0 ∨ h ≤ 0 then .ok (.bare 3.5)
    else
      match pydiv 1 ta, pydiv 0.4 ta, pydiv z' h with
      | .ok u, .ok q, .ok r =>
        .ok (.triple (1 + min u 2.5 * r + max (1 - q ^ 2) 0 * r ^ 10)
          (some (min u 2.5)) (some (max (1 - q ^ 2) 0)))
      | .error e, _, _ => .error e
      | _, .error e, _ => .error e
      | _, _, .error e => .error e

/-- `calculate_rmu(R, Ie, Omega_0)`: `max(sqrt(1.1 * R / (Ie * Omega_0)), 1.3)`,
with the `ZeroDivisionError` on `Ie * Omega_0 = 0` caught and turned into
`1.3`; `math.sqrt` of a negative argument raises `ValueError`, which the
source does not catch. -/
noncomputable def calculate_rmu (R Ie Omega_0 : ℝ) : Except String ℝ :=
  if Ie * Omega_0 = 0 then .ok 1.3
  else if 1.1 * R / (Ie * Omega_0) < 0 then .error "ValueError"
  else .ok (max (Real.sqrt (1.1 * R / (Ie * Omega_0))) 1.3)

/-- `calculate_fp_coeff_16(SDS, Ip, ap, Rp, z_over_h)`:
`Fp_calc = 0.4 * ap * SDS / (Rp / Ip) * (1 + 2 * z_over_h)`, clamped into
`[0.3 * SDS * Ip, 1.6 * SDS * Ip]`; returns `(Fp, Fp_calc, Fp_min, Fp_max)`. -/
def calculate_fp_coeff_16 (SDS Ip ap Rp z_over_h : ℚ) :
    Except String (ℚ × ℚ × ℚ × ℚ) :=
  match pydiv Rp Ip with
  | .error e => .error e
  | .ok rp_over_ip =>
    match pydiv (0.4 * ap * SDS) rp_over_ip with
    | .error e => .error e
    | .ok base =>
      let Fp_calc := base * (1 + 2 * z_over_h)
      let Fp_min := 0.3 * SDS * Ip
      let Fp_max := 1.6 * SDS * Ip
      let Fp := max (min Fp_calc Fp_max) Fp_min
      .ok (Fp, Fp_calc, Fp_min, Fp_max)

/-- `calculate_fp_coeff_22(SDS, Ip, Hf, Rmu, CAR, Rpo)`:
`Fp_calc = 0.4 * SDS * Ip * (Hf / Rmu) * (CAR / Rpo)`, clamped into
`[0.3 * SDS * Ip, 1.6 * SDS * Ip]`; returns `(Fp, Fp_calc, Fp_min, Fp_max)`. -/
def calculate_fp_coeff_22 (SDS Ip Hf Rmu CAR Rpo : ℚ) :
    Except String (ℚ × ℚ × ℚ × ℚ) :=
  match pydiv Hf Rmu with
  | .error e => .error e
  | .ok hf_over_rmu =>
    match pydiv CAR Rpo with
    | .error e => .error e
    | .ok car_over_rpo =>
      let Fp_calc := 0.4 * SDS * Ip * hf_over_rmu * car_over_rpo
      let Fp_min := 0.3 * SDS * Ip
      let Fp_max := 1.6 * SDS * Ip
      let Fp := max (min Fp_calc Fp_max) Fp_min
      .ok (Fp, Fp_calc, Fp_min, Fp_max)

/-! ### Lookup helper lemmas -/

lemma find?_append_first {α : Type} (p : α → Bool) (pre suf : List α) (a : α)
    (hpre : ∀ x ∈ pre, p x = false) (ha : p a = true) :
    (pre ++ a :: suf).find? p = some a := by
  induction pre with
  | nil => simp [List.find?_cons, ha]
  | cons x xs ih =>
    have hx : p x = false := hpre x (List.mem_cons_self x xs)
    rw [List.cons_append, List.find?_cons_of_neg _ (by simp [hx]),
      ih (fun y hy => hpre y (List.mem_cons_of_mem x hy))]

lemma get_sfrs_factors_first (pre suf : List SfrsRow) (row : SfrsRow) (s : String)
    (hpre : ∀ r ∈ pre, pyNormalize r.SFRS ≠ pyNormalize s)
    (hrow : pyNormalize row.SFRS = pyNormalize s) :
    get_sfrs_factors (pre ++ row :: suf) (some s) = (some row.R, some row.Omega) := by
  have hfind : (pre ++ row :: suf).find? (fun r => pyNormalize r.SFRS == pyNormalize s) =
      some row :=
    find?_append_first _ pre suf row (fun r hr => by simpa using hpre r hr)
      (by simpa using hrow)
  simp [get_sfrs_factors, hfind]

lemma get_sfrs_factors_no_match (data : List SfrsRow) (s : String)
    (h : ∀ r ∈ data, pyNormalize r.SFRS ≠ pyNormalize s) :
    get_sfrs_factors data (some s) = (some 1.0, some 1.0) := by
  have hfind : data.find? (fun r => pyNormalize r.SFRS == pyNormalize s) = none :=
    List.find?_eq_none.mpr (fun r hr => by simpa using h r hr)
  simp [get_sfrs_factors, hfind]

lemma get_component_factors_first (pre suf : List ComponentRow) (row : ComponentRow)
    (s : String) (loc : Option String)
    (hpre : ∀ r ∈ pre, pyNormalize r.Component ≠ pyNormalize s)
    (hrow : pyNormalize row.Component = pyNormalize s) :
    get_component_factors (pre ++ row :: suf) (some s) loc =
      ((if loc = some "Supported At or Below Grade" then row.CAR_below else row.CAR_above),
        row.Rpo, row.Omega) := by
  have hfind : (pre ++ row :: suf).find?
      (fun r => pyNormalize r.Component == pyNormalize s) = some row :=
    find?_append_first _ pre suf row (fun r hr => by simpa using hpre r hr)
      (by simpa using hrow)
  simp [get_component_factors, hfind]

lemma get_component_factors_no_match (data : List ComponentRow) (s : String)
    (loc : Option String)
    (h : ∀ r ∈ data, pyNormalize r.Component ≠ pyNormalize s) :
    get_component_factors data (some s) loc = (1.0, 1.0, 1.0) := by
  have hfind : data.find? (fun r => pyNormalize r.Component == pyNormalize s) = none :=
    List.find?_eq_none.mpr (fun r hr => by simpa using h r hr)
  simp [get_component_factors, hfind]

lemma get_component_factors_16_no_match (data : List ComponentRow) (s : String)
    (h : ∀ r ∈ data, pyNormalize r.Component ≠ pyNormalize s) :
    get_component_factors_16 data (some s) = (1.0, 1.0, 1.0) := by
  have hfind : data.find? (fun r => pyNormalize r.Component == pyNormalize s) = none :=
    List.find?_eq_none.mpr (fun r hr => by simpa using h r hr)
  simp [get_component_factors_16, hfind]

/-! ### Claim C1 -/

/-- C1 counterexample: on the source, the system-factor lookup returns the
sentinel `(None, None)` for an absent selection but the all-ones fallback
`(1.0, 1.0)` for an unmatched name, so the two calls differ. -/
theorem sfrs_none_ne_unmatched :
    get_sfrs_factors [⟨"Special Moment Frame", 8, 3⟩] none = (none, none) ∧
    get_sfrs_factors [⟨"Special Moment Frame", 8, 3⟩] (some "not-a-real-system") =
      (some 1.0, some 1.0) ∧
    get_sfrs_factors [⟨"Special Moment Frame", 8, 3⟩] none ≠
      get_sfrs_factors [⟨"Special Moment Frame", 8, 3⟩] (some "not-a-real-system") := by
  have h2 : get_sfrs_factors [⟨"Special Moment Frame", 8, 3⟩] (some "not-a-real-system") =
      (some 1.0, some 1.0) :=
    get_sfrs_factors_no_match _ _ (by decide)
  refine ⟨rfl, h2, ?_⟩
  rw [h2]
  simp [get_sfrs_factors]

/-- C1 amended: the system-factor lookup returns `(None, None)` when the name
is absent, and the all-ones fallback `(1.0, 1.0)` only when a present name
matches no record; the two results are never equal. -/
theorem sfrs_absent_vs_unmatched (data : List SfrsRow) (s : String)
    (h : ∀ r ∈ data, pyNormalize r.SFRS ≠ pyNormalize s) :
    get_sfrs_factors data none = (none, none) ∧
    get_sfrs_factors data (some s) = (some 1.0, some 1.0) ∧
    get_sfrs_factors data none ≠ get_sfrs_factors data (some s) := by
  refine ⟨rfl, get_sfrs_factors_no_match data s h, ?_⟩
  rw [get_sfrs_factors_no_match data s h]
  simp [get_sfrs_factors]

/-- C1 amended, witness at a concrete table and the spec's unmatched name. -/
theorem sfrs_absent_vs_unmatched_witness :
    get_sfrs_factors [⟨"Ordinary Moment Frame", 3.5, 3⟩] none = (none, none) ∧
    get_sfrs_factors [⟨"Ordinary Moment Frame", 3.5, 3⟩] (some "not-a-real-system") =
      (some 1.0, some 1.0) ∧
    get_sfrs_factors [⟨"Ordinary Moment Frame", 3.5, 3⟩] none ≠
      get_sfrs_factors [⟨"Ordinary Moment Frame", 3.5, 3⟩] (some "not-a-real-system") :=
  sfrs_absent_vs_unmatched [⟨"Ordinary Moment Frame", 3.5, 3⟩] "not-a-real-system"
    (by decide)

/-! ### Claim C7 -/

/-- C7: for any component table and any present name matching no record (after
trimming and case folding), both component-factor lookups return the all-ones
triple `(1.0, 1.0, 1.0)` (they are total functions: no exception). -/
theorem component_lookup_fallback (data : List ComponentRow) (s : String)
    (loc : Option String)
    (h : ∀ r ∈ data, pyNormalize r.Component ≠ pyNormalize s) :
    get_component_factors data (some s) loc = (1.0, 1.0, 1.0) ∧
    get_component_factors_16 data (some s) = (1.0, 1.0, 1.0) :=
  ⟨get_component_factors_no_match data s loc h, get_component_factors_16_no_match data s h⟩

/-- C7 witness: a one-row table and a name matching nothing. -/
theorem component_lookup_fallback_witness :
    get_component_factors [⟨"Piping", 1.4, 1, 1.5, 2, 2.5, 6, 2⟩]
      (some "Unknown Component") none = (1.0, 1.0, 1.0) ∧
    get_component_factors_16 [⟨"Piping", 1.4, 1, 1.5, 2, 2.5, 6, 2⟩]
      (some "Unknown Component") = (1.0, 1.0, 1.0) :=
  component_lookup_fallback [⟨"Piping", 1.4, 1, 1.5, 2, 2.5, 6, 2⟩]
    "Unknown Component" none (by decide)

/-! ### Claim C8 -/

/-- C8: both lookups compare names after trimming surrounding whitespace and
case folding (here: `pyNormalize`); a name normalizing to the same character
list as a record key matches that record, and when several records share a
key, the first match in table order is returned. -/
theorem lookup_normalized_first_match
    (pre suf : List SfrsRow) (row : SfrsRow)
    (cpre csuf : List ComponentRow) (crow : ComponentRow)
    (s t : String) (loc : Option String)
    (hpre : ∀ r ∈ pre, pyNormalize r.SFRS ≠ pyNormalize s)
    (hrow : pyNormalize row.SFRS = pyNormalize s)
    (hcpre : ∀ r ∈ cpre, pyNormalize r.Component ≠ pyNormalize t)
    (hcrow : pyNormalize crow.Component = pyNormalize t) :
    get_sfrs_factors (pre ++ row :: suf) (some s) = (some row.R, some row.Omega) ∧
    get_component_factors (cpre ++ crow :: csuf) (some t) loc =
      ((if loc = some "Supported At or Below Grade" then crow.CAR_below else crow.CAR_above),
        crow.Rpo, crow.Omega) :=
  ⟨get_sfrs_factors_first pre suf row s hpre hrow,
    get_component_factors_first cpre csuf crow t loc hcpre hcrow⟩

/-- C8 witness: names differing from the stored keys only in case and
surrounding whitespace match, and with a duplicated key the first record in
table order wins. -/
theorem lookup_normalized_first_match_witness :
    get_sfrs_factors
      [⟨"Bearing Wall", 5, 2.5⟩, ⟨"Special Moment Frame", 8, 3⟩,
        ⟨"Special Moment Frame", 99, 99⟩]
      (some "  SPECIAL moment FRAME  ") = (some 8, some 3) ∧
    get_component_factors
      [⟨"Piping", 1.4, 1, 1.5, 2, 2.5, 6, 2⟩]
      (some " pIpInG ") none = (1, 1.5, 2) :=
  lookup_normalized_first_match
    [⟨"Bearing Wall", 5, 2.5⟩] [⟨"Special Moment Frame", 99, 99⟩]
    ⟨"Special Moment Frame", 8, 3⟩
    [] [] ⟨"Piping", 1.4, 1, 1.5, 2, 2.5, 6, 2⟩
    "  SPECIAL moment FRAME  " " pIpInG " none
    (by decide) (by decide) (by decide) (by decide)

/-! ### Claim C10 -/

/-- C10: on a matched record the below-grade CAR is returned exactly when the
location argument is the string `"Supported At or Below Grade"`; any other
location yields the above-grade CAR; with an absent or unmatched name the
location argument never affects the all-ones result. -/
theorem component_location_selection
    (pre suf : List ComponentRow) (row : ComponentRow) (s : String)
    (hpre : ∀ r ∈ pre, pyNormalize r.Component ≠ pyNormalize s)
    (hrow : pyNormalize row.Component = pyNormalize s) :
    get_component_factors (pre ++ row :: suf) (some s)
      (some "Supported At or Below Grade") = (row.CAR_below, row.Rpo, row.Omega) ∧
    (∀ loc : Option String, loc ≠ some "Supported At or Below Grade" →
      get_component_factors (pre ++ row :: suf) (some s) loc =
        (row.CAR_above, row.Rpo, row.Omega)) ∧
    (∀ (data : List ComponentRow) (loc : Option String),
      get_component_factors data none loc = (1.0, 1.0, 1.0)) ∧
    (∀ (data : List ComponentRow) (u : String) (loc loc' : Option String),
      (∀ r ∈ data, pyNormalize r.Component ≠ pyNormalize u) →
      get_component_factors data (some u) loc = (1.0, 1.0, 1.0) ∧
      get_component_factors data (some u) loc = get_component_factors data (some u) loc') := by
  refine ⟨?_, fun loc hloc => ?_, fun data loc => rfl, fun data u loc loc' hu => ?_⟩
  · rw [get_component_factors_first pre suf row s _ hpre hrow, if_pos rfl]
  · rw [get_component_factors_first pre suf row s loc hpre hrow, if_neg hloc]
  · rw [get_component_factors_no_match data u loc hu,
      get_component_factors_no_match data u loc' hu]
    exact ⟨rfl, rfl⟩

/-- C10 witness: the below-grade location string selects `CAR_below`, an
absent location selects `CAR_above`, and on an unmatched name the location
does not matter. -/
theorem component_location_selection_witness :
    get_component_factors [⟨"Piping", 1.4, 1, 1.5, 2, 2.5, 6, 2⟩] (some "Piping")
      (some "Supported At or Below Grade") = (1.4, 1.5, 2) ∧
    get_component_factors [⟨"Piping", 1.4, 1, 1.5, 2, 2.5, 6, 2⟩] (some "Piping")
      none = (1, 1.5, 2) ∧
    get_component_factors [⟨"Piping", 1.4, 1, 1.5, 2, 2.5, 6, 2⟩] (some "Cladding")
      (some "Supported At or Below Grade") = (1.0, 1.0, 1.0) := by
  have h := component_location_selection [] [] ⟨"Piping", 1.4, 1, 1.5, 2, 2.5, 6, 2⟩
    "Piping" (by decide) (by decide)
  exact ⟨h.1, h.2.1 none (by decide),
    (h.2.2.2 [⟨"Piping", 1.4, 1, 1.5, 2, 2.5, 6, 2⟩] "Cladding"
      (some "Supported At or Below Grade") none (by decide)).1⟩

/-! ### Coefficient helper lemmas -/

lemma clamp_mem (m M c : ℚ) (hmM : m ≤ M) :
    m ≤ max (min c M) m ∧ max (min c M) m ≤ M ∧
      max (min (max (min c M) m) M) m = max (min c M) m := by
  refine ⟨le_max_right _ _, max_le (min_le_right _ _) hmM, ?_⟩
  rw [min_eq_left (max_le (min_le_right _ _) hmM), max_eq_left (le_max_right _ _)]

lemma calculate_fp_coeff_16_ok (SDS Ip ap Rp z_over_h : ℚ)
    (hIp : Ip ≠ 0) (hRp : Rp ≠ 0) :
    calculate_fp_coeff_16 SDS Ip ap Rp z_over_h =
      .ok (max (min (0.4 * ap * SDS / (Rp / Ip) * (1 + 2 * z_over_h)) (1.6 * SDS * Ip))
          (0.3 * SDS * Ip),
        0.4 * ap * SDS / (Rp / Ip) * (1 + 2 * z_over_h), 0.3 * SDS * Ip,
        1.6 * SDS * Ip) := by
  simp [calculate_fp_coeff_16, pydiv, hIp, div_ne_zero hRp hIp]

lemma calculate_fp_coeff_22_ok (SDS Ip Hf Rmu CAR Rpo : ℚ)
    (hRmu : Rmu ≠ 0) (hRpo : Rpo ≠ 0) :
    calculate_fp_coeff_22 SDS Ip Hf Rmu CAR Rpo =
      .ok (max (min (0.4 * SDS * Ip * (Hf / Rmu) * (CAR / Rpo)) (1.6 * SDS * Ip))
          (0.3 * SDS * Ip),
        0.4 * SDS * Ip * (Hf / Rmu) * (CAR / Rpo), 0.3 * SDS * Ip,
        1.6 * SDS * Ip) := by
  simp [calculate_fp_coeff_22, pydiv, hRmu, hRpo]

lemma calculate_fp_coeff_16_ok_inv {SDS Ip ap Rp z_over_h Fp Fpc Fpm FpM : ℚ}
    (h : calculate_fp_coeff_16 SDS Ip ap Rp z_over_h = .ok (Fp, Fpc, Fpm, FpM)) :
    Fpm = 0.3 * SDS * Ip ∧ FpM = 1.6 * SDS * Ip ∧ Fp = max (min Fpc FpM) Fpm := by
  unfold calculate_fp_coeff_16 at h
  split at h
  · exact absurd h (by simp)
  · split at h
    · exact absurd h (by simp)
    · simp only [Except.ok.injEq, Prod.mk.injEq] at h
      obtain ⟨e1, e2, e3, e4⟩ := h
      subst e1; subst e2; subst e3; subst e4
      exact ⟨rfl, rfl, rfl⟩

lemma calculate_fp_coeff_22_ok_inv {SDS Ip Hf Rmu CAR Rpo Fp Fpc Fpm FpM : ℚ}
    (h : calculate_fp_coeff_22 SDS Ip Hf Rmu CAR Rpo = .ok (Fp, Fpc, Fpm, FpM)) :
    Fpm = 0.3 * SDS * Ip ∧ FpM = 1.6 * SDS * Ip ∧ Fp = max (min Fpc FpM) Fpm := by
  unfold calculate_fp_coeff_22 at h
  split at h
  · exact absurd h (by simp)
  · split at h
    · exact absurd h (by simp)
    · simp only [Except.ok.injEq, Prod.mk.injEq] at h
      obtain ⟨e1, e2, e3, e4⟩ := h
      subst e1; subst e2; subst e3; subst e4
      exact ⟨rfl, rfl, rfl⟩

/-! ### Claim C5 -/

/-- C5: for both variants, whenever `SDS ≥ 0` and `Ip ≥ 0` and the function
returns, the returned minimum `0.3·SDS·Ip` is at most the returned maximum
`1.6·SDS·Ip`, the returned coefficient is the clamp
`max(Fp_min, min(Fp_calc, Fp_max))` and lies in `[Fp_min, Fp_max]`, and
clamping the already-clamped value returns it unchanged. -/
theorem fp_coeff_clamp (SDS Ip : ℚ) (hS : 0 ≤ SDS) (hI : 0 ≤ Ip) :
    (∀ ap Rp z_over_h Fp Fpc Fpm FpM : ℚ,
      calculate_fp_coeff_16 SDS Ip ap Rp z_over_h = .ok (Fp, Fpc, Fpm, FpM) →
      Fpm = 0.3 * SDS * Ip ∧ FpM = 1.6 * SDS * Ip ∧ Fpm ≤ FpM ∧
      Fp = max (min Fpc FpM) Fpm ∧ Fpm ≤ Fp ∧ Fp ≤ FpM ∧
      max (min Fp FpM) Fpm = Fp) ∧
    (∀ Hf Rmu CAR Rpo Fp Fpc Fpm FpM : ℚ,
      calculate_fp_coeff_22 SDS Ip Hf Rmu CAR Rpo = .ok (Fp, Fpc, Fpm, FpM) →
      Fpm = 0.3 * SDS * Ip ∧ FpM = 1.6 * SDS * Ip ∧ Fpm ≤ FpM ∧
      Fp = max (min Fpc FpM) Fpm ∧ Fpm ≤ Fp ∧ Fp ≤ FpM ∧
      max (min Fp FpM) Fpm = Fp) := by
  have hmM : (0.3:ℚ) * SDS * Ip ≤ 1.6 * SDS * Ip := by nlinarith [mul_nonneg hS hI]
  constructor
  · intro ap Rp z_over_h Fp Fpc Fpm FpM h
    obtain ⟨e1, e2, e3⟩ := calculate_fp_coeff_16_ok_inv h
    subst e1; subst e2; subst e3
    obtain ⟨c1, c2, c3⟩ := clamp_mem _ _ Fpc hmM
    exact ⟨rfl, rfl, hmM, rfl, c1, c2, c3⟩
  · intro Hf Rmu CAR Rpo Fp Fpc Fpm FpM h
    obtain ⟨e1, e2, e3⟩ := calculate_fp_coeff_22_ok_inv h
    subst e1; subst e2; subst e3
    obtain ⟨c1, c2, c3⟩ := clamp_mem _ _ Fpc hmM
    exact ⟨rfl, rfl, hmM, rfl, c1, c2, c3⟩

/-- C5 witness: the Variant A scenario `SDS = Ip = ap = 1`, `Rp = 2.5`,
`z/h = 0`, whose returned tuple is `(0.3, 0.16, 0.3, 1.6)`. -/
theorem fp_coeff_clamp_witness :
    (0.3:ℚ) = 0.3 * 1 * 1 ∧ (1.6:ℚ) = 1.6 * 1 * 1 ∧ (0.3:ℚ) ≤ 1.6 ∧
    (0.3:ℚ) = max (min 0.16 1.6) 0.3 ∧ (0.3:ℚ) ≤ 0.3 ∧ (0.3:ℚ) ≤ 1.6 ∧
    max (min (0.3:ℚ) 1.6) 0.3 = 0.3 :=
  (fp_coeff_clamp 1 1 (by norm_num) (by norm_num)).1 1 2.5 0 0.3 0.16 0.3 1.6
    (by rw [calculate_fp_coeff_16_ok 1 1 1 2.5 0 (by norm_num) (by norm_num)]
        norm_num [min_def, max_def])

/-! ### Claim C6 -/

/-- C6: the two coefficient functions compute `Fp_calc` exactly as
`0.4·ap·SDS/(Rp/Ip)·(1+2·z/h)` (Variant A) and
`0.4·SDS·Ip·(Hf/Rμ)·(CAR/Rpo)` (Variant B); in the scenario `SDS = 1`,
`Ip = 1`, `ap = 1`, `Rp = 2.5`, `z/h = 0` Variant A yields
`Fp_calc = 0.16` and `Fp_coeff = 0.3`. -/
theorem fp_coeff_formulas (SDS Ip ap Rp z_over_h Hf Rmu CAR Rpo : ℚ)
    (hIp : Ip ≠ 0) (hRp : Rp ≠ 0) (hRmu : Rmu ≠ 0) (hRpo : Rpo ≠ 0) :
    calculate_fp_coeff_16 SDS Ip ap Rp z_over_h =
      .ok (max (min (0.4 * ap * SDS / (Rp / Ip) * (1 + 2 * z_over_h)) (1.6 * SDS * Ip))
          (0.3 * SDS * Ip),
        0.4 * ap * SDS / (Rp / Ip) * (1 + 2 * z_over_h), 0.3 * SDS * Ip,
        1.6 * SDS * Ip) ∧
    calculate_fp_coeff_22 SDS Ip Hf Rmu CAR Rpo =
      .ok (max (min (0.4 * SDS * Ip * (Hf / Rmu) * (CAR / Rpo)) (1.6 * SDS * Ip))
          (0.3 * SDS * Ip),
        0.4 * SDS * Ip * (Hf / Rmu) * (CAR / Rpo), 0.3 * SDS * Ip,
        1.6 * SDS * Ip) ∧
    calculate_fp_coeff_16 1 1 1 2.5 0 = .ok (0.3, 0.16, 0.3, 1.6) := by
  refine ⟨calculate_fp_coeff_16_ok SDS Ip ap Rp z_over_h hIp hRp,
    calculate_fp_coeff_22_ok SDS Ip Hf Rmu CAR Rpo hRmu hRpo, ?_⟩
  rw [calculate_fp_coeff_16_ok 1 1 1 2.5 0 (by norm_num) (by norm_num)]
  norm_num [min_def, max_def]

/-- C6 witness: the concrete Variant A scenario. -/
theorem fp_coeff_formulas_witness :
    calculate_fp_coeff_16 1 1 1 2.5 0 = .ok (0.3, 0.16, 0.3, 1.6) :=
  (fp_coeff_formulas 1 1 1 2.5 0 1 1 1 1 (by norm_num) (by norm_num)
    (by norm_num) (by norm_num)).2.2

/-! ### Height-factor helper lemmas -/

lemma if_clamp_eq_min (z h : ℚ) : (if z > h then h else z) = min z h := by
  rcases le_or_lt z h with h1 | h1
  · rw [if_neg (not_lt.mpr h1), min_eq_left h1]
  · rw [if_pos h1, min_eq_right h1.le]

lemma calculate_hf_none_eq (z h : ℚ) (hh : h ≠ 0) :
    calculate_hf z h none = .ok (.triple (1 + 2.5 * (min z h / h)) none none) := by
  simp [calculate_hf, pydiv, hh, if_clamp_eq_min]

lemma calculate_hf_some_eq (z h ta : ℚ) (hh : 0 < h) (hta : 0 < ta) :
    calculate_hf z h (some ta) =
      .ok (.triple (1 + min (1 / ta) 2.5 * (min z h / h) +
          max (1 - (0.4 / ta) ^ 2) 0 * (min z h / h) ^ 10)
        (some (min (1 / ta) 2.5)) (some (max (1 - (0.4 / ta) ^ 2) 0))) := by
  have hg : ¬(ta ≤ 0 ∨ h ≤ 0) := by
    push_neg
    exact ⟨hta, hh⟩
  simp [calculate_hf, pydiv, hta.ne', hh.ne', hg, if_clamp_eq_min]

/-! ### Claim C2 -/

/-- C2 counterexample: with no period available and a zero roof height, the
height-factor function divides by `h` with no guard and raises
`ZeroDivisionError`, so not every arithmetic edge case is guarded. -/
theorem hf_zero_height_faults :
    calculate_hf 0 0 none = .error "ZeroDivisionError" := by
  simp [calculate_hf, pydiv]

/-- C2 amended: the guards that exist do produce fixed fallbacks — the
period branch returns the bare `3.5` whenever `Ta ≤ 0` or `h ≤ 0`, and the
ductility factor returns `1.3` when `Ie·Ω₀ = 0` — but the no-period
height-factor branch divides by `h` unguarded, so a zero roof height with no
period raises a division fault. -/
theorem hf_rmu_guards (z h ta : ℚ) (R Ie Om : ℝ)
    (hg : ta ≤ 0 ∨ h ≤ 0) (h0 : Ie * Om = 0) :
    calculate_hf z h (some ta) = .ok (.bare 3.5) ∧
    calculate_rmu R Ie Om = .ok 1.3 ∧
    calculate_hf 0 0 none = .error "ZeroDivisionError" := by
  refine ⟨by simp [calculate_hf, hg], by simp [calculate_rmu, h0], ?_⟩
  simp [calculate_hf, pydiv]

/-- C2 amended, witness: `Ta = 0` triggers the bare `3.5` fallback,
`Ie·Ω₀ = 0` triggers the `1.3` fallback, and `h = 0` with no period faults. -/
theorem hf_rmu_guards_witness :
    calculate_hf 0 1 (some 0) = .ok (.bare 3.5) ∧
    calculate_rmu 1 0 1 = .ok 1.3 ∧
    calculate_hf 0 0 none = .error "ZeroDivisionError" :=
  hf_rmu_guards 0 1 0 1 0 1 (Or.inl le_rfl) (by norm_num)

/-! ### Claim C3 -/

/-- C3: for `z ≥ 0` and `h > 0` the height-factor function clamps `z` to `h`
(the ratio used is `min z h / h`); with no period it returns
`1 + 2.5·(z/h)` and no `a1`/`a2`; with a period `Ta > 0` it returns
`1 + a1·(z/h) + a2·(z/h)^10` with `a1 = min(1/Ta, 2.5)` and
`a2 = max(1 − (0.4/Ta)², 0)`; at `z = 0` both branches give `Hf = 1`, and
for `z > h` the ratio used is exactly `1`. -/
theorem calculate_hf_spec (z h ta : ℚ) (hz : 0 ≤ z) (hh : 0 < h) (hta : 0 < ta) :
    calculate_hf z h none = .ok (.triple (1 + 2.5 * (min z h / h)) none none) ∧
    calculate_hf z h (some ta) =
      .ok (.triple (1 + min (1 / ta) 2.5 * (min z h / h) +
          max (1 - (0.4 / ta) ^ 2) 0 * (min z h / h) ^ 10)
        (some (min (1 / ta) 2.5)) (some (max (1 - (0.4 / ta) ^ 2) 0))) ∧
    (z = 0 →
      calculate_hf z h none = .ok (.triple 1 none none) ∧
      calculate_hf z h (some ta) =
        .ok (.triple 1 (some (min (1 / ta) 2.5)) (some (max (1 - (0.4 / ta) ^ 2) 0)))) ∧
    (h < z → min z h / h = 1) := by
  refine ⟨calculate_hf_none_eq z h hh.ne', calculate_hf_some_eq z h ta hh hta,
    fun hz0 => ?_, fun hlt => ?_⟩
  · subst hz0
    have hr : min (0:ℚ) h / h = 0 := by rw [min_eq_left hh.le, zero_div]
    constructor
    · rw [calculate_hf_none_eq 0 h hh.ne', hr]
      norm_num
    · rw [calculate_hf_some_eq 0 h ta hh hta, hr]
      norm_num
  · rw [min_eq_right hlt.le, div_self hh.ne']

/-- C3 witness at `z = 1`, `h = 2`, `Ta = 1`. -/
theorem calculate_hf_spec_witness :
    calculate_hf 1 2 none = .ok (.triple (1 + 2.5 * (min 1 2 / 2)) none none) :=
  (calculate_hf_spec 1 2 1 (by norm_num) (by norm_num) (by norm_num)).1

/-! ### Claim C4 -/

/-- C4: the ductility factor is `max(√(1.1·R/(Ie·Ω₀)), 1.3)`, with the
division-by-zero guard returning `1.3` directly; for `R ≥ 1`,
`Ie ∈ {1.0, 1.25, 1.5}`, `Ω₀ ≥ 1` it is at least `1.3`, with equality
exactly when the square root evaluates to at most `1.3` (the `Ie·Ω₀ = 0`
guard case cannot occur under these hypotheses). -/
theorem calculate_rmu_spec (R Ie Om : ℝ) (hR : 1 ≤ R)
    (hIe : Ie = 1 ∨ Ie = 1.25 ∨ Ie = 1.5) (hOm : 1 ≤ Om) :
    (∀ S J W : ℝ, J * W = 0 → calculate_rmu S J W = .ok 1.3) ∧
    calculate_rmu R Ie Om = .ok (max (Real.sqrt (1.1 * R / (Ie * Om))) 1.3) ∧
    (1.3 : ℝ) ≤ max (Real.sqrt (1.1 * R / (Ie * Om))) 1.3 ∧
    (max (Real.sqrt (1.1 * R / (Ie * Om))) 1.3 = 1.3 ↔
      Real.sqrt (1.1 * R / (Ie * Om)) ≤ 1.3) := by
  have hIe1 : 1 ≤ Ie := by
    rcases hIe with h | h | h <;> norm_num [h]
  have hpos : 0 < Ie * Om := by nlinarith
  have harg : 0 ≤ 1.1 * R / (Ie * Om) := div_nonneg (by nlinarith) hpos.le
  refine ⟨fun S J W h0 => by simp [calculate_rmu, h0], ?_, le_max_right _ _,
    max_eq_right_iff⟩
  simp [calculate_rmu, hpos.ne', not_lt.mpr harg]

/-- C4 witness at `R = 1`, `Ie = 1`, `Ω₀ = 1`. -/
theorem calculate_rmu_spec_witness :
    calculate_rmu 1 1 1 = .ok (max (Real.sqrt (1.1 * 1 / (1 * 1))) 1.3) :=
  (calculate_rmu_spec 1 1 1 le_rfl (Or.inl rfl) le_rfl).2.1

/-! ### Claim C9 -/

lemma calculate_ta_first (pre suf : List PeriodRow) (row : PeriodRow) (s : String)
    (hn : ℝ)
    (hpre : ∀ r ∈ pre, pyNormalize r.structureType ≠ pyNormalize s)
    (hrow : pyNormalize row.structureType = pyNormalize s) :
    calculate_ta (pre ++ row :: suf) (some s) hn =
      (some (row.Ct * hn ^ row.x), some row.Ct, some row.x) := by
  have hfind : (pre ++ row :: suf).find?
      (fun r => pyNormalize r.structureType == pyNormalize s) = some row :=
    find?_append_first _ pre suf row (fun r hr => by simpa using hpre r hr)
      (by simpa using hrow)
  simp [calculate_ta, hfind]

lemma calculate_ta_no_match (data : List PeriodRow) (s : String) (hn : ℝ)
    (h : ∀ r ∈ data, pyNormalize r.structureType ≠ pyNormalize s) :
    calculate_ta data (some s) hn = (none, none, none) := by
  have hfind : data.find? (fun r => pyNormalize r.structureType == pyNormalize s) = none :=
    List.find?_eq_none.mpr (fun r hr => by simpa using h r hr)
  simp [calculate_ta, hfind]

/-- C9: for a roof height `h > 0`, the period lookup returns
`(Ta, Ct, x)` with `Ta = Ct · h^x` taken from the first record matching the
structure type, and returns `(None, None, None)` when the structure type is
absent or matches no record (so the period is never computed for an unknown
type). -/
theorem calculate_ta_spec (pre suf : List PeriodRow) (row : PeriodRow) (s : String)
    (hn : ℝ) (hh : 0 < hn)
    (hpre : ∀ r ∈ pre, pyNormalize r.structureType ≠ pyNormalize s)
    (hrow : pyNormalize row.structureType = pyNormalize s) :
    calculate_ta (pre ++ row :: suf) (some s) hn =
      (some (row.Ct * hn ^ row.x), some row.Ct, some row.x) ∧
    calculate_ta (pre ++ row :: suf) none hn = (none, none, none) ∧
    (∀ (data : List PeriodRow) (u : String),
      (∀ r ∈ data, pyNormalize r.structureType ≠ pyNormalize u) →
      calculate_ta data (some u) hn = (none, none, none)) :=
  ⟨calculate_ta_first pre suf row s hn hpre hrow, rfl,
    fun data u hu => calculate_ta_no_match data u hn hu⟩

/-- C9 witness: a one-row period table, matched case-insensitively at
`h = 10`. -/
theorem calculate_ta_spec_witness :
    calculate_ta [⟨"Steel Moment-Resisting Frames", 0.028, 0.8⟩]
      (some " steel moment-resisting frames ") 10 =
      (some ((0.028 : ℝ) * (10:ℝ) ^ (0.8 : ℝ)), some 0.028, some 0.8) :=
  (calculate_ta_spec [] [] ⟨"Steel Moment-Resisting Frames", 0.028, 0.8⟩
    " steel moment-resisting frames " 10 (by norm_num) (by decide) (by decide)).1

end FpCalc
